import Mathlib

/-!
Verification of the strux WPE extension IPC bridge
(src/assets/wpe-extension-base/extension.c).

This file gives a shallow embedding of the bridge's async call queue,
correlation table, response decoder, sync field access and binding
generator, and proves properties about them.  Stateful C code becomes
explicit state passing on a `BridgeState`; the continuation pair of a
pending call is identified by its call id, and every invocation of a
continuation is recorded as an `Event` in the returned trace.  Transport
I/O and the host JavaScript engine are external collaborators and are
modelled as parameters (`Transport`, host JSON-parse oracles, response
lines given as inputs).
-/

namespace Strux

/-- A JSON value as handled by json-glib in extension.c.  json-glib value
nodes carry a string, a double/int64 number (both read back with
json_node_get_double, modelled with one rational payload), or a boolean;
null is its own node type; objects and arrays are container nodes. -/
inductive JsonValue where
  | jstr (s : String)
  | jnum (q : ℚ)
  | jbool (b : Bool)
  | jnull
  | jobject (members : List (String × JsonValue))
  | jarray (elems : List JsonValue)

/-- A JavaScriptCore value as observed through the jsc_value_is_* API used
in extension.c.  `vstruct j` is a native structured value (object or
array) whose JSON tree is `j`, as produced by the host JSON.parse;
`vfunction` stands for any function value. -/
inductive JSValue where
  | vstr (s : String)
  | vnum (q : ℚ)
  | vbool (b : Bool)
  | vnull
  | vundefined
  | vfunction
  | vstruct (j : JsonValue)

/-- jsc_value_is_string. -/
def jsIsString : JSValue → Bool
  | .vstr _ => true
  | _ => false

/-- jsc_value_is_number. -/
def jsIsNumber : JSValue → Bool
  | .vnum _ => true
  | _ => false

/-- jsc_value_is_boolean. -/
def jsIsBoolean : JSValue → Bool
  | .vbool _ => true
  | _ => false

/-- jsc_value_is_function. -/
def jsIsFunction : JSValue → Bool
  | .vfunction => true
  | _ => false

/-- jsc_value_is_array: true exactly on native arrays. -/
def jsIsArray : JSValue → Bool
  | .vstruct (.jarray _) => true
  | _ => false

/-- jsc_value_is_object: in JavaScript, arrays and functions are objects,
so the JSC predicate is true for any structured value and for functions. -/
def jsIsObject : JSValue → Bool
  | .vstruct _ => true
  | .vfunction => true
  | _ => false

/-- The request envelope built by json_builder in extension.c:
id (decimal string), method, params array. -/
structure Envelope where
  id : String
  method : String
  params : List JsonValue

/-- Positional-argument serialization shared by js_call_go_method and
set_field_value: strings, numbers and booleans pass through as their
JSON equivalent, anything else serializes as JSON null. -/
def serializeArg (v : JSValue) : JsonValue :=
  if jsIsString v then match v with | .vstr s => .jstr s | _ => .jnull
  else if jsIsNumber v then match v with | .vnum q => .jnum q | _ => .jnull
  else if jsIsBoolean v then match v with | .vbool b => .jbool b | _ => .jnull
  else .jnull

/-- js_call_go_method: builds the JSON-RPC envelope for one method stub
invocation.  The call id is the pre-increment value of the process-wide
guint call_counter (g_atomic_int_add returns the old value), rendered in
decimal; guint wraparound is the mod 2^32.  Returns the envelope and the
advanced counter.  The promise creation and the hand-off to
send_ipc_message_async are modelled separately by the queue machine. -/
def js_call_go_method (method_name : String) (args : List JSValue) (counter : Nat) :
    Envelope × Nat :=
  ({ id := toString (counter % 2 ^ 32)
   , method := method_name
   , params := args.map serializeArg }, counter + 1)

/-- An AsyncRequest as queued by send_ipc_message_async: the serialized
request line and its call id.  The resolve/reject continuation pair and
the owning JSCContext are identified by the call id; invoking a
continuation is recorded as an `Event`. -/
structure AsyncRequest where
  message : String
  callId : String
deriving DecidableEq

/-- One observable continuation/transport action of the bridge. -/
inductive Event where
  | wrote (callId : String)
  | resolved (callId : String) (v : JSValue)
  | rejected (callId : String) (msg : String)
  | droppedStale (callId : String)

/-- The process-wide mutable async state of extension.c: the FIFO queue
(async_queue), the correlation table pending_promises (a hash table whose
keys are call ids; the stored continuation pair is identified by the
key), the in-flight flag (async_inflight), and the call ids of
outstanding g_data_input_stream_read_line_async operations (the live
AsyncReadContext values). -/
structure BridgeState where
  queue : List AsyncRequest
  pending : List String
  inflight : Bool
  readPending : List String
deriving DecidableEq

/-- g_hash_table_insert with a string key: replaces any existing entry
with the same key. -/
def tableInsert (id : String) (t : List String) : List String :=
  id :: t.filter (fun k => !(k == id))

/-- g_hash_table_remove. -/
def tableRemove (id : String) (t : List String) : List String :=
  t.filter (fun k => !(k == id))

/-- g_hash_table_lookup returning non-NULL. -/
def tableHas (id : String) (t : List String) : Bool :=
  t.contains id

/-- Outcome of the connect/write steps of the transport for one dispatch
attempt (connect_async_ipc and g_output_stream_write_all). -/
structure Transport where
  connectOk : Bool
  writeOk : Bool

/-- A transport that never fails. -/
def okTransport : Transport := ⟨true, true⟩

/-- An unreachable endpoint: connect_async_ipc always fails. -/
def unreachable : Transport := ⟨false, true⟩

/-- A transport whose connect succeeds but whose
g_output_stream_write_all always fails. -/
def failWrite : Transport := ⟨true, false⟩

/-- The dispatch loop of start_next_async_request, one queue entry at a
time.  In the C source the failure branches clear the in-flight flag and
recursively call start_next_async_request; since that recursive entry
always sees in-flight false and the remaining queue, it is embedded as
structural recursion on the queue.

Per popped request, following the source order: set in-flight; if connect
fails, reject the request's failure continuation (no correlation entry
was created), clear in-flight, retry; if connect succeeds, insert the
correlation entry, write the line; on write failure reject, remove the
just-created entry, clear in-flight, retry; on success begin reading one
reply line (the call id joins readPending) and leave in-flight true. -/
def startNextLoop (t : Transport) :
    List AsyncRequest → List String → List String → BridgeState × List Event
  | [], pending, readPending => (⟨[], pending, false, readPending⟩, [])
  | r :: rest, pending, readPending =>
    if t.connectOk then
      if t.writeOk then
        (⟨rest, tableInsert r.callId pending, true, readPending ++ [r.callId]⟩,
         [Event.wrote r.callId])
      else
        let retry := startNextLoop t rest
          (tableRemove r.callId (tableInsert r.callId pending)) readPending
        (retry.1, Event.rejected r.callId "Failed to write message" :: retry.2)
    else
      let retry := startNextLoop t rest pending readPending
      (retry.1, Event.rejected r.callId "Failed to connect to IPC" :: retry.2)

/-- start_next_async_request: no-op if a request is in flight (the
queue-empty case of the loop likewise leaves the state unchanged). -/
def startNext (t : Transport) (s : BridgeState) : BridgeState × List Event :=
  if s.inflight then (s, [])
  else startNextLoop t s.queue s.pending s.readPending

/-- send_ipc_message_async: append the request to the FIFO queue; if no
request was in flight at that point, drain the queue. -/
def send_ipc_message_async (t : Transport) (r : AsyncRequest) (s : BridgeState) :
    BridgeState × List Event :=
  let s1 : BridgeState := { s with queue := s.queue ++ [r] }
  if s.inflight then (s1, []) else startNext t s1

/-- True on the json-glib container node types (JSON_NODE_OBJECT,
JSON_NODE_ARRAY). -/
def isContainer : JsonValue → Bool
  | .jobject _ => true
  | .jarray _ => true
  | _ => false

/-- The result-conversion block of async_read_callback (extension.c lines
274-329).  A value node holding a string, a number (G_TYPE_DOUBLE or
G_TYPE_INT64), or a boolean becomes the corresponding native value; any
other value node and JSON_NODE_NULL become native null; a container node
is re-serialized and fed to the host's JSON.parse, modelled by the oracle
`hostParse` (the composition json_generator_to_data followed by
JSON.parse); if that raises (oracle returns none) the result is
substituted with undefined; any other node type also yields undefined. -/
def convert_json_result (hostParse : JsonValue → Option JsonValue) :
    JsonValue → JSValue
  | .jstr s => .vstr s
  | .jnum q => .vnum q
  | .jbool b => .vbool b
  | .jnull => .vnull
  | j =>
    match hostParse j with
    | some v => .vstruct v
    | none => .vundefined

/-- What one completed g_data_input_stream_read_line_finish produced:
a read failure (NULL line or error), a line json_parser cannot parse, or
a parsed object with an error member, a result member, or neither. -/
inductive ReadOutcome where
  | readError
  | malformed
  | respError (msg : String)
  | respResult (j : JsonValue)
  | respNeither

/-- async_read_callback (extension.c lines 208-349), completing the read
whose AsyncReadContext carries `ctxId`.  The read context is always
freed.  On a read failure the matching continuation, if any, is rejected
and its entry removed, and the function returns at line 236 without
touching the in-flight flag or draining the queue.  On a malformed line
the parsed block is skipped and the tail of the function clears in-flight
and drains.  For a parsed object with no matching correlation entry the
response is logged and dropped, in-flight cleared, queue drained.  With a
matching entry: an error member rejects with the backend message, a
result member resolves with the converted value, neither settles nothing;
the entry is removed, in-flight cleared, and the queue drained. -/
def asyncReadCallback (t : Transport) (hostParse : JsonValue → Option JsonValue)
    (ctxId : String) (outcome : ReadOutcome) (s : BridgeState) :
    BridgeState × List Event :=
  let s0 : BridgeState := { s with readPending := s.readPending.erase ctxId }
  match outcome with
  | .readError =>
    if tableHas ctxId s0.pending then
      ({ s0 with pending := tableRemove ctxId s0.pending },
       [Event.rejected ctxId "Failed to read response"])
    else (s0, [])
  | .malformed =>
    startNext t { s0 with inflight := false }
  | o =>
    if tableHas ctxId s0.pending then
      let settle : List Event :=
        match o with
        | .respError msg => [Event.rejected ctxId msg]
        | .respResult j => [Event.resolved ctxId (convert_json_result hostParse j)]
        | _ => []
      let s1 : BridgeState :=
        { s0 with pending := tableRemove ctxId s0.pending, inflight := false }
      let next := startNext t s1
      (next.1, settle ++ next.2)
    else
      let next := startNext t { s0 with inflight := false }
      (next.1, Event.droppedStale ctxId :: next.2)

/-- A response line on the sync channel after send_ipc_message_sync, as
seen by the json-glib parse in get_field_value / inject_bindings: either
a line json_parser rejects, or a parsed object with optional error and
result members (only these members are ever consulted). -/
inductive SyncResp where
  | malformed
  | obj (errorMember : Option String) (resultMember : Option JsonValue)

/-- Outcome of one get_field_value invocation.  `value` is the JSValue
returned to the getter.  `rejection` records any failure continuation
settled or error raised by the call: the source has no such path (it
never throws and consults no error member), so it is always none. -/
structure GetFieldOutcome where
  value : JSValue
  rejection : Option String

/-- The result conversion of get_field_value (extension.c lines 591-627).
Identical rules to the async decoder: string/number/boolean value nodes
pass through, other value nodes and null nodes become native null, and a
container node goes through the host JSON.parse.  There is no explicit
exception check here: if JSON.parse raises, the call produces no value
and the final fallback at line 640 returns undefined. -/
def convert_field_result (hostParse : JsonValue → Option JsonValue) :
    JsonValue → JSValue
  | .jstr s => .vstr s
  | .jnum q => .vnum q
  | .jbool b => .vbool b
  | .jnull => .vnull
  | j =>
    match hostParse j with
    | some v => .vstruct v
    | none => .vundefined

/-- get_field_value (extension.c lines 547-641), given the sync-channel
response (`none` models send_ipc_message_sync returning NULL).  Only the
result member is checked; every other case leaves result NULL and the
function returns undefined. -/
def get_field_value (hostParse : JsonValue → Option JsonValue)
    (resp : Option SyncResp) : GetFieldOutcome :=
  match resp with
  | none => ⟨.vundefined, none⟩
  | some .malformed => ⟨.vundefined, none⟩
  | some (.obj _ resultMember) =>
    match resultMember with
    | some j => ⟨convert_field_result hostParse j, none⟩
    | none => ⟨.vundefined, none⟩

/-- The numeric type tags accepted by the field setter's validation
chain (extension.c lines 717-728). -/
def numericTypeTags : List String :=
  ["int", "int8", "int16", "int32", "int64",
   "uint", "uint8", "uint16", "uint32", "uint64",
   "float32", "float64"]

/-- The type-validation chain of field_setter_callback: a declared
string wants a string, the int/uint/float families want a number, bool
wants a boolean, and any other declared type accepts objects/arrays. -/
def typeValid (fieldType : String) (v : JSValue) : Bool :=
  if fieldType == "string" then jsIsString v
  else if numericTypeTags.contains fieldType then jsIsNumber v
  else if fieldType == "bool" then jsIsBoolean v
  else jsIsObject v || jsIsArray v

/-- The observed-kind string used in the setter's TypeError message
(the nested conditional at extension.c lines 743-748). -/
def observedKind (v : JSValue) : String :=
  if jsIsString v then "string"
  else if jsIsNumber v then "number"
  else if jsIsBoolean v then "boolean"
  else if jsIsFunction v then "function"
  else if jsIsArray v then "array"
  else if jsIsObject v then "object"
  else "unknown"

/-- set_field_value: builds the synchronous __setField request with the
next call id and params [field_name, value]; the response line returned
by send_ipc_message_sync is freed unread (discarded).  Returns the
envelope written and the advanced counter. -/
def set_field_value (counter : Nat) (fieldName : String) (v : JSValue) :
    Envelope × Nat :=
  ({ id := toString (counter % 2 ^ 32)
   , method := "__setField"
   , params := [.jstr fieldName, serializeArg v] }, counter + 1)

/-- What one field_setter_callback invocation did: the TypeError it
raised, if any, and the sync requests it wrote. -/
structure SetterOutcome where
  thrown : Option String
  writes : List Envelope

/-- field_setter_callback (extension.c lines 706-760): validate the
value's runtime kind against the declared type; on mismatch raise a
TypeError naming the field, the expected type and the observed kind,
performing no network call; on match perform exactly one __setField
round trip whose response is discarded. -/
def field_setter_callback (counter : Nat) (fieldName fieldType : String)
    (v : JSValue) : SetterOutcome × Nat :=
  if typeValid fieldType v then
    let w := set_field_value counter fieldName v
    (⟨none, [w.1]⟩, w.2)
  else
    (⟨some ("TypeError: Cannot assign to field '" ++ fieldName ++ "': expected "
        ++ fieldType ++ " but got " ++ observedKind v), []⟩, counter)

/-- One struct entry of the __getBindings schema: the method names of
its methods array and the (name, type) pairs of its fields array. -/
structure StructDecl where
  methods : List String
  fields : List (String × String)
deriving DecidableEq

/-- The parsed __getBindings result object: top-level members map a
namespace (package) name to an object mapping struct names to their
declarations.  The reserved member "strux" has the same JSON shape (its
second level is sub-namespaces with methods). -/
abbrev Bindings := List (String × List (String × StructDecl))

/-- One method stub installed by inject_bindings: where it lives in the
scripting global object, the property name, and the remote method name
captured as the stub's user data (the string js_call_go_method will put
in the envelope's method member). -/
structure InstalledStub where
  containerPath : List String
  propName : String
  remoteName : String
deriving DecidableEq

/-- The package walk of inject_bindings (extension.c lines 894-976):
every top-level member is walked as a package; per struct and per
declared method a stub is installed at window.go.pkg.struct.method whose
captured remote name is g_strdup(method_name) - the short method name. -/
def installGoStubs (b : Bindings) : List InstalledStub :=
  b.flatMap fun pkg =>
    pkg.2.flatMap fun st =>
      st.2.methods.map fun m =>
        ⟨["go", pkg.1, st.1], m, m⟩

/-- The reserved walk of inject_bindings (extension.c lines 979-1039):
if the schema has a "strux" member, its sub-namespaces' methods are
installed at window.strux.ns.method with the captured remote name
"strux.ns.method" while the property name stays the short name. -/
def installStruxStubs (b : Bindings) : List InstalledStub :=
  match b.lookup "strux" with
  | none => []
  | some nss =>
    nss.flatMap fun ns =>
      ns.2.methods.map fun m =>
        ⟨["strux", ns.1], m, "strux." ++ ns.1 ++ "." ++ m⟩

/-- All method stubs installed by inject_bindings for one schema. -/
def installStubs (b : Bindings) : List InstalledStub :=
  installGoStubs b ++ installStruxStubs b

/-- inject_bindings reduced to its stub installation: `none` models a
failed sync call, a malformed response, or a response without a result
member, all of which install nothing. -/
def inject_bindings (resp : Option Bindings) : List InstalledStub :=
  match resp with
  | some b => installStubs b
  | none => []

/-- The context-reset prefix of window_object_cleared_callback
(extension.c lines 1207-1226): remove all correlation entries
(g_hash_table_remove_all; the destroy function only unrefs, settling
nothing), pop and free every queued request (free_async_request invokes
no continuation), and reset the in-flight flag to false.  Outstanding
read operations are not cancelled.  The event list records the
continuations settled while resetting: none. -/
def on_context_reset (s : BridgeState) : BridgeState × List Event :=
  (⟨[], [], false, s.readPending⟩, [])

/-- The observable result of window_object_cleared_callback: the async
state in force when inject_bindings runs, the continuations settled by
the reset, and the stubs installed for the new context. -/
structure ClearedResult where
  stateAtInstall : BridgeState
  resetEvents : List Event
  stubs : List InstalledStub

/-- window_object_cleared_callback (extension.c lines 1197-1235): first
clear the correlation table, drain the queue and reset in-flight, then
install console interceptors (no bridge state touched) and finally
inject_bindings, which uses only the sync channel. -/
def window_object_cleared_callback (s : BridgeState) (resp : Option Bindings) :
    ClearedResult :=
  let reset := on_context_reset s
  ⟨reset.1, reset.2, inject_bindings resp⟩

/-- Drives `send_ipc_message_async` for a list of stub invocations in
submission order, concatenating the event traces. -/
def enqueueAll (t : Transport) (rs : List AsyncRequest) (s : BridgeState) :
    BridgeState × List Event :=
  match rs with
  | [] => (s, [])
  | r :: rest =>
    let step := send_ipc_message_async t r s
    let more := enqueueAll t rest step.1
    (more.1, step.2 ++ more.2)

/-- Delivers read completions one at a time: each completion goes to the
oldest outstanding read context (the async channel is a single ordered
stream and the machine keeps at most one read outstanding); if no read
is outstanding nothing arrives. -/
def deliverAll (t : Transport) (hostParse : JsonValue → Option JsonValue)
    (outcomes : List ReadOutcome) (s : BridgeState) : BridgeState × List Event :=
  match outcomes with
  | [] => (s, [])
  | o :: rest =>
    match s.readPending with
    | [] => (s, [])
    | id :: _ =>
      let step := asyncReadCallback t hostParse id o s
      let more := deliverAll t hostParse rest step.1
      (more.1, step.2 ++ more.2)

/-- The bridge state at process start: empty queue, empty correlation
table, in-flight false, no outstanding read. -/
def initialBridge : BridgeState := ⟨[], [], false, []⟩

/-- The fully serialized trace the spec promises for N calls against a
transport that never fails: write request k, settle k, only then write
request k+1. -/
def expectedSerialTrace (hostParse : JsonValue → Option JsonValue) :
    List (AsyncRequest × JsonValue) → List Event
  | [] => []
  | (r, v) :: rest =>
    Event.wrote r.callId ::
      Event.resolved r.callId (convert_json_result hostParse v) ::
        expectedSerialTrace hostParse rest

/-- A host JSON.parse oracle that always raises. -/
def hpNone : JsonValue → Option JsonValue := fun _ => none

/-- A host JSON.parse oracle that inverts serialization exactly,
returning the same JSON tree as a native structure. -/
def hpId : JsonValue → Option JsonValue := fun j => some j

/-- Concrete queued request with call id 1. -/
def reqA : AsyncRequest := ⟨"msgA", "1"⟩

/-- Concrete queued request with call id 2. -/
def reqB : AsyncRequest := ⟨"msgB", "2"⟩

/-- A schema with one plain namespace, one struct, one method. -/
def exampleBindings : Bindings :=
  [("main", [("App", ⟨["Greet"], []⟩)])]

/-- A container result value used as a concrete conversion input. -/
def sampleContainer : JsonValue :=
  .jobject [("a", .jarray [.jnum 1, .jnum 2])]

/-- Concrete state: request 1 in flight, request 2 queued behind it. -/
def stalledStart : BridgeState := ⟨[reqB], ["1"], true, ["1"]⟩

/-- Concrete state: request 7 in flight, nothing queued. -/
def lonePending : BridgeState := ⟨[], ["7"], true, ["7"]⟩

theorem startNextLoop_connectFail (q : List AsyncRequest) (p rp : List String) :
    startNextLoop unreachable q p rp =
      (⟨[], p, false, rp⟩,
       q.map fun r => Event.rejected r.callId "Failed to connect to IPC") := by
  induction q with
  | nil => rfl
  | cons r rest ih =>
    have hc : unreachable.connectOk = false := rfl
    simp [startNextLoop, hc, ih]

theorem startNext_unreachable_spec (s : BridgeState) (h : s.inflight = false) :
    startNext unreachable s =
      (⟨[], s.pending, false, s.readPending⟩,
       s.queue.map fun r => Event.rejected r.callId "Failed to connect to IPC") := by
  obtain ⟨q, p, i, rp⟩ := s
  cases h
  simp [startNext, startNextLoop_connectFail]

theorem filter_ne_of_not_mem (id : String) (p : List String) (h : id ∉ p) :
    p.filter (fun k => !(k == id)) = p := by
  apply List.filter_eq_self.mpr
  intro a ha
  simp only [Bool.not_eq_true']
  exact beq_eq_false_iff_ne.mpr fun e => h (e ▸ ha)

theorem tableRemove_insert_cancel (id : String) (p : List String) (h : id ∉ p) :
    tableRemove id (tableInsert id p) = p := by
  have hf := filter_ne_of_not_mem id p h
  simp [tableRemove, tableInsert, hf]

theorem startNextLoop_dispatchFail (t : Transport)
    (hf : t.connectOk = false ∨ t.writeOk = false)
    (q : List AsyncRequest) (p rp : List String)
    (hfresh : ∀ r ∈ q, r.callId ∉ p) :
    startNextLoop t q p rp =
      (⟨[], p, false, rp⟩,
       q.map fun r => Event.rejected r.callId
         (if t.connectOk then "Failed to write message"
          else "Failed to connect to IPC")) := by
  induction q with
  | nil => simp [startNextLoop]
  | cons r rest ih =>
    have hrest : ∀ x ∈ rest, x.callId ∉ p :=
      fun x hx => hfresh x (List.mem_cons_of_mem r hx)
    have hr : r.callId ∉ p := hfresh r (List.mem_cons_self r rest)
    cases hc : t.connectOk with
    | false => simp [startNextLoop, hc, ih hrest]
    | true =>
      have hw : t.writeOk = false := by
        rcases hf with h | h
        · rw [h] at hc
          cases hc
        · exact h
      simp [startNextLoop, hc, hw, tableRemove_insert_cancel r.callId p hr,
        ih hrest]

theorem enqueueAll_inflight (t : Transport) (rs : List AsyncRequest)
    (s : BridgeState) (h : s.inflight = true) :
    enqueueAll t rs s = ({ s with queue := s.queue ++ rs }, []) := by
  induction rs generalizing s with
  | nil => simp [enqueueAll]
  | cons r rest ih =>
    obtain ⟨q, p, i, rp⟩ := s
    cases h
    have htail := ih ⟨q ++ [r], p, true, rp⟩ rfl
    simp [enqueueAll, send_ipc_message_async, htail]

theorem enqueue_from_idle (r : AsyncRequest) (rest : List AsyncRequest) :
    enqueueAll okTransport (r :: rest) initialBridge =
      (⟨rest, [r.callId], true, [r.callId]⟩, [Event.wrote r.callId]) := by
  have hstep : send_ipc_message_async okTransport r initialBridge =
      (⟨[], [r.callId], true, [r.callId]⟩, [Event.wrote r.callId]) := by
    simp [send_ipc_message_async, initialBridge, startNext, startNextLoop,
      okTransport, tableInsert]
  have htail := enqueueAll_inflight okTransport rest ⟨[], [r.callId], true, [r.callId]⟩ rfl
  simp [enqueueAll, hstep, htail]

theorem deliver_loop (hostParse : JsonValue → Option JsonValue)
    (rest : List (AsyncRequest × JsonValue)) (r : AsyncRequest) (v : JsonValue) :
    deliverAll okTransport hostParse
        (((r, v) :: rest).map fun p => ReadOutcome.respResult p.2)
        (⟨rest.map Prod.fst, [r.callId], true, [r.callId]⟩ : BridgeState) =
      (⟨[], [], false, []⟩,
       Event.resolved r.callId (convert_json_result hostParse v) ::
         expectedSerialTrace hostParse rest) := by
  induction rest generalizing r v with
  | nil =>
    simp [deliverAll, asyncReadCallback, tableHas, tableRemove,
      startNext, startNextLoop, expectedSerialTrace, List.erase_cons_head]
  | cons p rest' ih =>
    obtain ⟨r2, v2⟩ := p
    have hcb : asyncReadCallback okTransport hostParse r.callId
        (ReadOutcome.respResult v)
        (⟨r2 :: rest'.map Prod.fst, [r.callId], true, [r.callId]⟩ : BridgeState) =
        ((⟨rest'.map Prod.fst, [r2.callId], true, [r2.callId]⟩ : BridgeState),
         [Event.resolved r.callId (convert_json_result hostParse v),
          Event.wrote r2.callId]) := by
      simp [asyncReadCallback, tableHas, tableRemove,
        startNext, startNextLoop, okTransport, tableInsert, List.erase_cons_head]
    have htail := ih r2 v2
    simp only [List.map_cons] at htail ⊢
    simp only [deliverAll]
    rw [hcb]
    dsimp only
    have h1 : (deliverAll okTransport hostParse
        (List.map (fun p => ReadOutcome.respResult p.2) rest')
        (asyncReadCallback okTransport hostParse r2.callId (ReadOutcome.respResult v2)
          (⟨rest'.map Prod.fst, [r2.callId], true, [r2.callId]⟩ : BridgeState)).1).1
        = (⟨[], [], false, []⟩ : BridgeState) := congrArg Prod.fst htail
    have h2 : (asyncReadCallback okTransport hostParse r2.callId (ReadOutcome.respResult v2)
          (⟨rest'.map Prod.fst, [r2.callId], true, [r2.callId]⟩ : BridgeState)).2 ++
        (deliverAll okTransport hostParse
          (List.map (fun p => ReadOutcome.respResult p.2) rest')
          (asyncReadCallback okTransport hostParse r2.callId (ReadOutcome.respResult v2)
            (⟨rest'.map Prod.fst, [r2.callId], true, [r2.callId]⟩ : BridgeState)).1).2
        = Event.resolved r2.callId (convert_json_result hostParse v2) ::
            expectedSerialTrace hostParse rest' := congrArg Prod.snd htail
    rw [h1, h2]
    simp [expectedSerialTrace]

/-- C1, counterexample: the claim says every stub of a non-reserved
namespace sends the fully-qualified remote name namespace.struct.method.
On the schema with namespace main, struct App and method Greet, the only
installed stub captures the short name Greet, and the envelope it sends
carries method member Greet, which is not main.App.Greet. -/
theorem c1_fully_qualified_counterexample :
    installStubs exampleBindings =
      [⟨["go", "main", "App"], "Greet", "Greet"⟩] ∧
    (js_call_go_method "Greet" [] 0).1.method = "Greet" ∧
    ("Greet" : String) ≠ "main.App.Greet" := by
  refine ⟨rfl, rfl, by decide⟩

/-- C1, amended: for every method declared in a namespace walked by the
package loop, the installed stub captures the short method name as the
remote name, and the request envelope it sends carries that short name
as its method member; only the reserved strux walk builds a dotted
remote name. -/
theorem c1_go_stub_short_name (b : Bindings) (pkg st : String)
    (structs : List (String × StructDecl)) (sd : StructDecl) (m : String)
    (hb : (pkg, structs) ∈ b) (hst : (st, sd) ∈ structs) (hm : m ∈ sd.methods) :
    (⟨["go", pkg, st], m, m⟩ : InstalledStub) ∈ installStubs b ∧
    ∀ (args : List JSValue) (c : Nat),
      (js_call_go_method m args c).1.method = m := by
  constructor
  · apply List.mem_append_left
    simp only [installGoStubs]
    refine List.mem_flatMap.2 ⟨(pkg, structs), hb, ?_⟩
    refine List.mem_flatMap.2 ⟨(st, sd), hst, ?_⟩
    exact List.mem_map.2 ⟨m, hm, rfl⟩
  · intro args c
    rfl

/-- Witness for C1's amended theorem at the concrete one-method schema. -/
theorem c1_go_stub_short_name_witness :
    (⟨["go", "main", "App"], "Greet", "Greet"⟩ : InstalledStub) ∈
      installStubs exampleBindings ∧
    (js_call_go_method "Greet" [] 0).1.method = "Greet" :=
  ⟨(c1_go_stub_short_name exampleBindings "main" "App"
      [("App", ⟨["Greet"], []⟩)] ⟨["Greet"], []⟩ "Greet"
      (by decide) (by decide) (by decide)).1,
   (c1_go_stub_short_name exampleBindings "main" "App"
      [("App", ⟨["Greet"], []⟩)] ⟨["Greet"], []⟩ "Greet"
      (by decide) (by decide) (by decide)).2 [] 0⟩

/-- C2, the code at the failing input: on a read failure with request 1
in flight and request 2 queued, async_read_callback rejects the
continuation of request 1 but returns with the in-flight flag still
true and request 2 still queued - the in-flight flag is not cleared and
start_next is not invoked, so the queue is permanently stalled.  This
contradicts the claim that every response-line outcome clears the flag
and drains the queue. -/
theorem c2_read_failure_stalls_queue :
    asyncReadCallback okTransport hpNone "1" ReadOutcome.readError stalledStart =
      (⟨[reqB], [], true, []⟩, [Event.rejected "1" "Failed to read response"]) := by
  rfl

/-- C3: for N async calls enqueued from the idle state before any reply
arrives, against a transport that never fails, the event trace is
exactly write 1, settle 1, write 2, settle 2, ..., write N, settle N:
call k's continuation is resolved before call k+1's request is written,
so at most one request is ever in flight and the N continuations settle
in submission order; afterwards the queue is empty, nothing is pending
and the in-flight flag is false. -/
theorem c3_serialized_fifo (hostParse : JsonValue → Option JsonValue)
    (pairs : List (AsyncRequest × JsonValue)) :
    (enqueueAll okTransport (pairs.map Prod.fst) initialBridge).2 ++
      (deliverAll okTransport hostParse
        (pairs.map fun p => ReadOutcome.respResult p.2)
        (enqueueAll okTransport (pairs.map Prod.fst) initialBridge).1).2
      = expectedSerialTrace hostParse pairs ∧
    (deliverAll okTransport hostParse
        (pairs.map fun p => ReadOutcome.respResult p.2)
        (enqueueAll okTransport (pairs.map Prod.fst) initialBridge).1).1.inflight
      = false ∧
    (deliverAll okTransport hostParse
        (pairs.map fun p => ReadOutcome.respResult p.2)
        (enqueueAll okTransport (pairs.map Prod.fst) initialBridge).1).1.queue
      = [] ∧
    (deliverAll okTransport hostParse
        (pairs.map fun p => ReadOutcome.respResult p.2)
        (enqueueAll okTransport (pairs.map Prod.fst) initialBridge).1).1.pending
      = [] := by
  cases pairs with
  | nil => simp [enqueueAll, deliverAll, initialBridge, expectedSerialTrace]
  | cons p rest =>
    obtain ⟨r, v⟩ := p
    have he := enqueue_from_idle r (rest.map Prod.fst)
    have hd := deliver_loop hostParse rest r v
    simp only [List.map_cons] at hd ⊢
    rw [he]
    dsimp only
    rw [hd]
    simp [expectedSerialTrace]

/-- C4: if connecting or writing fails while dispatching, each queued
request's failure continuation is rejected with the corresponding
failure message, any correlation entry just created for it is removed
(the write-failure path inserts the entry and then removes it, so the
table is restored, which the pending-unchanged conjunct states
non-trivially), the in-flight flag is cleared and start_next is retried,
so the whole queue of K pending requests drains with rejections: the
queue ends empty, nothing stays pending, and in-flight ends false.  The
freshness hypothesis - no queued call id is already a correlation key -
always holds in real runs: ids are fresh counter values and an entry
exists only for the one dispatched request. -/
theorem c4_dispatch_failure_drains (t : Transport) (s : BridgeState)
    (hfail : t.connectOk = false ∨ t.writeOk = false)
    (hinf : s.inflight = false)
    (hfresh : ∀ r ∈ s.queue, r.callId ∉ s.pending) :
    (startNext t s).1.queue = [] ∧
    (startNext t s).1.inflight = false ∧
    (startNext t s).1.pending = s.pending ∧
    (startNext t s).2 = s.queue.map fun r =>
      Event.rejected r.callId
        (if t.connectOk then "Failed to write message"
         else "Failed to connect to IPC") := by
  obtain ⟨q, p, i, rp⟩ := s
  cases hinf
  rw [show startNext t ⟨q, p, false, rp⟩ = startNextLoop t q p rp from rfl]
  rw [startNextLoop_dispatchFail t hfail q p rp hfresh]
  exact ⟨rfl, rfl, rfl, rfl⟩

/-- Witness for C4 with two concrete queued requests, exercising both
failure modes: a write failure against a non-empty correlation table
(restored unchanged after the insert-then-remove of each popped id) and
a connect failure. -/
theorem c4_dispatch_failure_drains_witness :
    (failWrite.connectOk = false ∨ failWrite.writeOk = false) ∧
    (startNext failWrite ⟨[reqA, reqB], ["9"], false, []⟩).1.pending = ["9"] ∧
    (startNext failWrite ⟨[reqA, reqB], ["9"], false, []⟩).1.queue = [] ∧
    (startNext failWrite ⟨[reqA, reqB], ["9"], false, []⟩).2 =
      [Event.rejected "1" "Failed to write message",
       Event.rejected "2" "Failed to write message"] ∧
    (startNext unreachable ⟨[reqA, reqB], [], false, []⟩).2 =
      [Event.rejected "1" "Failed to connect to IPC",
       Event.rejected "2" "Failed to connect to IPC"] := by
  refine ⟨Or.inr rfl, ?_, ?_, ?_, ?_⟩
  · rw [(c4_dispatch_failure_drains failWrite ⟨[reqA, reqB], ["9"], false, []⟩
      (Or.inr rfl) rfl (by decide)).2.2.1]
  · exact (c4_dispatch_failure_drains failWrite ⟨[reqA, reqB], ["9"], false, []⟩
      (Or.inr rfl) rfl (by decide)).1
  · rw [(c4_dispatch_failure_drains failWrite ⟨[reqA, reqB], ["9"], false, []⟩
      (Or.inr rfl) rfl (by decide)).2.2.2]
    rfl
  · rw [(c4_dispatch_failure_drains unreachable ⟨[reqA, reqB], [], false, []⟩
      (Or.inl rfl) rfl (by decide)).2.2.2]
    rfl

/-- C5, the code at the failing input: the claim states the in-flight
flag is true iff exactly one written request is unsettled.  After a read
failure for the lone in-flight request 7, its continuation has been
settled (rejected) and no written request remains outstanding - the
correlation table and the outstanding-read set are both empty - yet the
in-flight flag is still true, violating the claimed equivalence. -/
theorem c5_inflight_without_unsettled_request :
    (asyncReadCallback okTransport hpNone "7" ReadOutcome.readError
        lonePending).1.inflight = true ∧
    (asyncReadCallback okTransport hpNone "7" ReadOutcome.readError
        lonePending).1.pending = [] ∧
    (asyncReadCallback okTransport hpNone "7" ReadOutcome.readError
        lonePending).1.readPending = [] :=
  ⟨rfl, rfl, rfl⟩

/-- C6: on a runtime-kind mismatch with the declared type the setter
raises a TypeError naming the field, the expected type and the observed
kind, and performs zero network writes; on a match it performs exactly
one synchronous __setField round trip with params [field_name, value]
(its response is discarded by set_field_value). -/
theorem c6_setter_validation (c : Nat) (name ty : String) (v : JSValue) :
    (typeValid ty v = false →
      (field_setter_callback c name ty v).1.writes = [] ∧
      (field_setter_callback c name ty v).1.thrown =
        some ("TypeError: Cannot assign to field '" ++ name ++ "': expected "
          ++ ty ++ " but got " ++ observedKind v)) ∧
    (typeValid ty v = true →
      (field_setter_callback c name ty v).1.thrown = none ∧
      (field_setter_callback c name ty v).1.writes =
        [{ id := toString (c % 2 ^ 32), method := "__setField",
           params := [.jstr name, serializeArg v] }]) := by
  constructor <;> intro h <;> simp [field_setter_callback, set_field_value, h]

/-- Witness for C6: a boolean into an int32 field writes nothing; a
number into the same field performs exactly one __setField write. -/
theorem c6_setter_validation_witness :
    (field_setter_callback 0 "count" "int32" (JSValue.vbool true)).1.writes = [] ∧
    (field_setter_callback 0 "count" "int32" (JSValue.vnum 5)).1.writes =
      [{ id := "0", method := "__setField",
         params := [JsonValue.jstr "count", JsonValue.jnum 5] }] := by
  refine ⟨((c6_setter_validation 0 "count" "int32" (JSValue.vbool true)).1
    (by decide)).1, ?_⟩
  rw [((c6_setter_validation 0 "count" "int32" (JSValue.vnum 5)).2 (by decide)).2]
  rfl

/-- C7: the result conversion maps a JSON string to a native string, a
JSON number to a native number, a JSON boolean to a native boolean, and
JSON null to native null; a JSON object or array goes through the host's
own JSON parser, yielding exactly the structure that parser returns
(with a parser that inverts serialization, a structurally equal native
value), and if the reparse fails the result is substituted with
undefined instead of propagating the failure.  The sync-path conversion
of get_field_value agrees with the async decoder on every input. -/
theorem c7_conversion_rules (hostParse : JsonValue → Option JsonValue) :
    (∀ s, convert_json_result hostParse (.jstr s) = .vstr s) ∧
    (∀ q, convert_json_result hostParse (.jnum q) = .vnum q) ∧
    (∀ b, convert_json_result hostParse (.jbool b) = .vbool b) ∧
    convert_json_result hostParse .jnull = .vnull ∧
    (∀ j, isContainer j = true →
      (∀ v, hostParse j = some v →
        convert_json_result hostParse j = .vstruct v) ∧
      (hostParse j = none → convert_json_result hostParse j = .vundefined)) ∧
    (∀ j, convert_field_result hostParse j = convert_json_result hostParse j) := by
  refine ⟨fun s => rfl, fun q => rfl, fun b => rfl, rfl, ?_, ?_⟩
  · intro j hj
    cases j with
    | jstr s => simp [isContainer] at hj
    | jnum q => simp [isContainer] at hj
    | jbool b => simp [isContainer] at hj
    | jnull => simp [isContainer] at hj
    | jobject members =>
      exact ⟨fun v hv => by simp [convert_json_result, hv],
             fun hn => by simp [convert_json_result, hn]⟩
    | jarray elems =>
      exact ⟨fun v hv => by simp [convert_json_result, hv],
             fun hn => by simp [convert_json_result, hn]⟩
  · intro j
    cases j <;> rfl

/-- Witness for C7 at a concrete container with a faithful host parser. -/
theorem c7_conversion_rules_witness :
    isContainer sampleContainer = true ∧
    convert_json_result hpId sampleContainer = JSValue.vstruct sampleContainer :=
  ⟨rfl, ((c7_conversion_rules hpId).2.2.2.2.1 sampleContainer rfl).1
    sampleContainer rfl⟩

/-- C8, counterexample: the claim says a __getField response with error
member boom yields a rejection carrying boom.  At that concrete
response the getter settles no rejection at all (the error member is
never consulted) and returns native undefined. -/
theorem c8_getfield_error_counterexample :
    (get_field_value hpNone (some (SyncResp.obj (some "boom") none))).rejection
      ≠ some "boom" ∧
    (get_field_value hpNone (some (SyncResp.obj (some "boom") none))).value
      = JSValue.vundefined :=
  ⟨fun h => Option.noConfusion h, rfl⟩

/-- C8, amended: a __getField response with result 42 yields native
number 42; a response whose only member is the error string boom yields
native undefined with no rejection raised - the synchronous field getter
ignores the error member. -/
theorem c8_getfield_results (hostParse : JsonValue → Option JsonValue) :
    (get_field_value hostParse
      (some (SyncResp.obj none (some (.jnum 42))))).value = JSValue.vnum 42 ∧
    (get_field_value hostParse
      (some (SyncResp.obj none (some (.jnum 42))))).rejection = none ∧
    (get_field_value hostParse
      (some (SyncResp.obj (some "boom") none))).value = JSValue.vundefined ∧
    (get_field_value hostParse
      (some (SyncResp.obj (some "boom") none))).rejection = none :=
  ⟨rfl, rfl, rfl, rfl⟩

/-- C9: after a context-reset event the correlation table is cleared in
full, every queued-but-unsent request is discarded with no continuation
settled (the reset emits no settle events), and the in-flight flag is
false in the state in force when bindings are re-installed for the new
context. -/
theorem c9_context_reset_clears (s : BridgeState) (resp : Option Bindings) :
    (window_object_cleared_callback s resp).stateAtInstall.pending = [] ∧
    (window_object_cleared_callback s resp).stateAtInstall.queue = [] ∧
    (window_object_cleared_callback s resp).stateAtInstall.inflight = false ∧
    (window_object_cleared_callback s resp).resetEvents = [] := by
  exact ⟨rfl, rfl, rfl, rfl⟩

/-- C10: when connect fails while dispatching queued requests, the
correlation table is left unchanged throughout the rejection cascade -
no entry is ever inserted for a request whose connect failed. -/
theorem c10_connect_failure_table_unchanged (s : BridgeState) :
    (startNext unreachable s).1.pending = s.pending := by
  obtain ⟨q, p, i, rp⟩ := s
  cases i
  · rw [startNext_unreachable_spec ⟨q, p, false, rp⟩ rfl]
  · simp [startNext]

end Strux
